import Mathlib

/-!
Shallow embedding of the greenhouse control-and-state subsystem
(`src/main.c`): the hysteresis decision `controlar`, the sensor poll
`lerSensores`, and the dashboard request handlers `handleSetMode`,
`handleSetRelay`, `handleSetConfig`, `handleGetData`.

Floating-point sensor values and thresholds are modelled as rationals
(the control logic only compares them with `<` and `>`); C `int`
values as `Int`; Arduino `String::toInt` as an `atol` model.
-/

/-- The last stored sensor values: globals `temperatura`, `umidade`,
`pctLuz` of `main.c`. -/
structure Reading where
  temperatura : ℚ
  umidade : ℚ
  pctLuz : Int
deriving DecidableEq, Repr

/-- The six hysteresis thresholds: globals `cfg_tempLigar`,
`cfg_tempDeslig`, `cfg_umidLigar`, `cfg_umidDeslig` (floats) and
`cfg_luzLigar`, `cfg_luzDeslig` (ints) of `main.c`. -/
structure Config where
  tempLigar : ℚ
  tempDeslig : ℚ
  umidLigar : ℚ
  umidDeslig : ℚ
  luzLigar : Int
  luzDeslig : Int
deriving DecidableEq, Repr

/-- The last-applied actuator commands: globals `lampada`, `motor`. -/
structure Actuators where
  lampada : Bool
  motor : Bool
deriving DecidableEq, Repr

/-- Mode flag and manual overrides: globals `modoManual`, `lampManual`,
`motManual`. -/
structure Mode where
  modoManual : Bool
  lampManual : Bool
  motManual : Bool
deriving DecidableEq, Repr

/-- The whole process state touched by the control loop and the
request handlers. -/
structure SysState where
  reading : Reading
  cfg : Config
  act : Actuators
  mode : Mode
deriving DecidableEq, Repr

/-- Motor update of `controlar` (main.c lines 207-208): the two
sequential `if` statements, the second one reading the value written
by the first. -/
def motorStep (r : Reading) (c : Config) (motor : Bool) : Bool :=
  let m1 := if motor = false ∧ (r.temperatura > c.tempLigar ∨ r.umidade > c.umidLigar)
            then true else motor
  if m1 = true ∧ (r.temperatura < c.tempDeslig ∧ r.umidade < c.umidDeslig)
  then false else m1

/-- Lamp update of `controlar` (main.c lines 211-212). -/
def lampStep (r : Reading) (c : Config) (lampada : Bool) : Bool :=
  let l1 := if lampada = false ∧ r.pctLuz < c.luzLigar then true else lampada
  if l1 = true ∧ r.pctLuz > c.luzDeslig then false else l1

/-- Model of `controlar()` (main.c lines 201-218), the pure decision part: in
manual mode the overrides pass through, otherwise the hysteresis
updates run.  The `digitalWrite` commits are the caller-side effect of
storing the result. -/
def controlar (m : Mode) (r : Reading) (c : Config) (s : Actuators) : Actuators :=
  if m.modoManual then
    { lampada := m.lampManual, motor := m.motManual }
  else
    { lampada := lampStep r c s.lampada, motor := motorStep r c s.motor }

/-- Digit accumulation of C `atol`: consume decimal digits greedily,
stop at the first non-digit. -/
def atolDigits : List Char → Nat → Nat
  | [], acc => acc
  | ch :: cs, acc =>
      if ch.isDigit then atolDigits cs (acc * 10 + (ch.toNat - 48)) else acc

/-- C `atol` on a character list: skip leading whitespace, optional
sign, then digits; a string with no leading digits yields 0. -/
def atol (cs : List Char) : Int :=
  match cs.dropWhile (fun ch => ch.isWhitespace) with
  | '-' :: rest => -(atolDigits rest 0 : Int)
  | '+' :: rest => (atolDigits rest 0 : Int)
  | rest => (atolDigits rest 0 : Int)

/-- Arduino `String::toInt`, which delegates to `atol`. -/
def toInt (s : String) : Int := atol s.data

/-- Arduino `constrain(x, lo, hi)`. -/
def constrain (x lo hi : Int) : Int :=
  if x < lo then lo else if x > hi then hi else x

/-- Arduino `map(x, inMin, inMax, outMin, outMax)` (integer arithmetic,
C truncating division; all uses here are on nonnegative values). -/
def arduinoMap (x inMin inMax outMin outMax : Int) : Int :=
  (x - inMin) * (outMax - outMin) / (inMax - inMin) + outMin

/-- One DHT22 sample: `none` models a NaN (failed) component reading. -/
structure DhtSample where
  t : Option ℚ
  h : Option ℚ
deriving DecidableEq, Repr

/-- Model of `lerSensores()` (main.c lines 188-196): a NaN temperature or
humidity leaves the stored value untouched; the LDR percentage is
always recomputed from the ADC value. -/
def lerSensores (s : DhtSample) (adc : Int) (st : SysState) : SysState :=
  let r := st.reading
  let r := match s.t with
           | some t => { r with temperatura := t }
           | none => r
  let r := match s.h with
           | some h => { r with umidade := h }
           | none => r
  let r := { r with pctLuz := constrain (arduinoMap adc 0 4095 0 100) 0 100 }
  { st with reading := r }

/-- The fields of the `GET /api/data` JSON body (main.c lines
519-537). -/
structure Snapshot where
  temp : ℚ
  umid : ℚ
  luz : Int
  lampada : Nat
  motor : Nat
  modoManual : Nat
  tempLigar : ℚ
  tempDeslig : ℚ
  umidLigar : ℚ
  umidDeslig : ℚ
  luzLigar : Int
  luzDeslig : Int
deriving DecidableEq, Repr

/-- Model of `handleGetData()` (main.c lines 519-537): a pure read of the
shared state into the response fields; booleans are serialized
as 0/1. -/
def handleGetData (st : SysState) : Snapshot :=
  { temp := st.reading.temperatura
    umid := st.reading.umidade
    luz := st.reading.pctLuz
    lampada := if st.act.lampada then 1 else 0
    motor := if st.act.motor then 1 else 0
    modoManual := if st.mode.modoManual then 1 else 0
    tempLigar := st.cfg.tempLigar
    tempDeslig := st.cfg.tempDeslig
    umidLigar := st.cfg.umidLigar
    umidDeslig := st.cfg.umidDeslig
    luzLigar := st.cfg.luzLigar
    luzDeslig := st.cfg.luzDeslig }

/-- Model of `handleSetMode()` (main.c lines 540-554): missing `mode` argument
is a 400; otherwise the target is manual exactly when the argument
parses (via `toInt`) to 1, and entering manual from automatic
snapshots the current relay states into the manual overrides. -/
def handleSetMode (marg : Option String) (st : SysState) : SysState × Nat :=
  match marg with
  | none => (st, 400)
  | some a =>
      let novoManual : Bool := toInt a == 1
      let m := st.mode
      let m := if novoManual && !m.modoManual then
                 { m with lampManual := st.act.lampada, motManual := st.act.motor }
               else m
      let m := { m with modoManual := novoManual }
      ({ st with mode := m }, 200)

/-- Model of `handleSetRelay()` (main.c lines 557-574): missing argument is a
400, automatic mode is a 403 with no state change; otherwise the
matching override (if the channel is `lamp` or `motor`) is set and
`controlar()` is re-run immediately. -/
def handleSetRelay (channel state : Option String) (st : SysState) : SysState × Nat :=
  match channel, state with
  | some ch, some sta =>
      if st.mode.modoManual = false then (st, 403)
      else
        let stInt := toInt sta
        let m := st.mode
        let m := if ch = "lamp" then { m with lampManual := stInt == 1 } else m
        let m := if ch = "motor" then { m with motManual := stInt == 1 } else m
        let st1 := { st with mode := m }
        let st2 := { st1 with act := controlar st1.mode st1.reading st1.cfg st1.act }
        (st2, 200)
  | _, _ => (st, 400)

/-- Model of `handleSetConfig()` (main.c lines 577-587): each present argument
overwrites its threshold, absent arguments leave theirs untouched;
always answers 200. -/
def handleSetConfig (tL tD uL uD : Option ℚ) (lL lD : Option Int)
    (st : SysState) : SysState × Nat :=
  let c := st.cfg
  let c := match tL with | some v => { c with tempLigar := v } | none => c
  let c := match tD with | some v => { c with tempDeslig := v } | none => c
  let c := match uL with | some v => { c with umidLigar := v } | none => c
  let c := match uD with | some v => { c with umidDeslig := v } | none => c
  let c := match lL with | some v => { c with luzLigar := v } | none => c
  let c := match lD with | some v => { c with luzDeslig := v } | none => c
  ({ st with cfg := c }, 200)

/-! ## Helper lemmas on the hysteresis steps -/

/-- Under the expected threshold ordering, the motor step is exactly
the engage/disengage/dead-band description. -/
theorem motorStep_spec (r : Reading) (c : Config) (b : Bool)
    (hT : c.tempDeslig < c.tempLigar) (hU : c.umidDeslig < c.umidLigar) :
    motorStep r c b =
      if b = false ∧ (r.temperatura > c.tempLigar ∨ r.umidade > c.umidLigar) then true
      else if b = true ∧ (r.temperatura < c.tempDeslig ∧ r.umidade < c.umidDeslig) then false
      else b := by
  by_cases hE : (r.temperatura > c.tempLigar ∨ r.umidade > c.umidLigar) <;>
  by_cases hD : (r.temperatura < c.tempDeslig ∧ r.umidade < c.umidDeslig) <;>
  cases b <;> simp [motorStep, hE, hD] <;>
  (exfalso; rcases hE with h | h <;> linarith [hD.1, hD.2])

/-- Under the expected threshold ordering, the lamp step is exactly
the engage/disengage/dead-band description. -/
theorem lampStep_spec (r : Reading) (c : Config) (b : Bool)
    (hL : c.luzLigar < c.luzDeslig) :
    lampStep r c b =
      if b = false ∧ r.pctLuz < c.luzLigar then true
      else if b = true ∧ r.pctLuz > c.luzDeslig then false
      else b := by
  by_cases hLo : (r.pctLuz < c.luzLigar) <;>
  by_cases hHi : (r.pctLuz > c.luzDeslig) <;>
  cases b <;> simp [lampStep, hLo, hHi] <;>
  (exfalso; omega)

/-- The motor step is idempotent for every threshold configuration,
ordered or not. -/
theorem motorStep_idem (r : Reading) (c : Config) (b : Bool) :
    motorStep r c (motorStep r c b) = motorStep r c b := by
  by_cases hE : (r.temperatura > c.tempLigar ∨ r.umidade > c.umidLigar) <;>
  by_cases hD : (r.temperatura < c.tempDeslig ∧ r.umidade < c.umidDeslig) <;>
  cases b <;> simp [motorStep, hE, hD]

/-- The lamp step is idempotent for every threshold configuration,
ordered or not. -/
theorem lampStep_idem (r : Reading) (c : Config) (b : Bool) :
    lampStep r c (lampStep r c b) = lampStep r c b := by
  by_cases hLo : (r.pctLuz < c.luzLigar) <;>
  by_cases hHi : (r.pctLuz > c.luzDeslig) <;>
  cases b <;> simp [lampStep, hLo, hHi]

/-! ## Claim theorems -/

/-- C1: with `tempDeslig < tempLigar` and `umidDeslig < umidLigar`, the
automatic branch of `controlar` turns the motor on exactly when it was
off and (temperature above `tempLigar` or humidity above `umidLigar`),
turns it off exactly when it was on and (temperature below `tempDeslig`
and humidity below `umidDeslig`), and otherwise leaves it unchanged. -/
theorem controlar_motor_hysteresis (m : Mode) (r : Reading) (c : Config) (s : Actuators)
    (hT : c.tempDeslig < c.tempLigar) (hU : c.umidDeslig < c.umidLigar)
    (hm : m.modoManual = false) :
    (controlar m r c s).motor =
      if s.motor = false ∧ (r.temperatura > c.tempLigar ∨ r.umidade > c.umidLigar) then true
      else if s.motor = true ∧ (r.temperatura < c.tempDeslig ∧ r.umidade < c.umidDeslig) then false
      else s.motor := by
  simp [controlar, hm, motorStep_spec r c s.motor hT hU]

/-- Witness for C1 at the spec's example: thresholds 30/27 and 70/60,
reading temperature 31 and humidity 50, motor previously off. -/
theorem controlar_motor_hysteresis_witness :
    (27 : ℚ) < 30 ∧ (60 : ℚ) < 70 ∧
    (controlar ⟨false, false, false⟩ ⟨31, 50, 50⟩ ⟨30, 27, 70, 60, 25, 35⟩ ⟨false, false⟩).motor =
      if false = false ∧ ((31 : ℚ) > 30 ∨ (50 : ℚ) > 70) then true
      else if false = true ∧ ((31 : ℚ) < 27 ∧ (50 : ℚ) < 60) then false
      else false :=
  ⟨by norm_num, by norm_num,
   controlar_motor_hysteresis ⟨false, false, false⟩ ⟨31, 50, 50⟩ ⟨30, 27, 70, 60, 25, 35⟩
     ⟨false, false⟩ (by norm_num) (by norm_num) rfl⟩

/-- C2: with `luzLigar < luzDeslig`, the automatic branch of `controlar`
turns the lamp on exactly when it was off and the light percentage is
below `luzLigar`, turns it off exactly when it was on and the light
percentage is above `luzDeslig`, and otherwise leaves it unchanged. -/
theorem controlar_lamp_hysteresis (m : Mode) (r : Reading) (c : Config) (s : Actuators)
    (hL : c.luzLigar < c.luzDeslig) (hm : m.modoManual = false) :
    (controlar m r c s).lampada =
      if s.lampada = false ∧ r.pctLuz < c.luzLigar then true
      else if s.lampada = true ∧ r.pctLuz > c.luzDeslig then false
      else s.lampada := by
  simp [controlar, hm, lampStep_spec r c s.lampada hL]

/-- Witness for C2 at the spec's example: thresholds 25/35, light 20,
lamp previously off. -/
theorem controlar_lamp_hysteresis_witness :
    (25 : Int) < 35 ∧
    (controlar ⟨false, false, false⟩ ⟨28, 50, 20⟩ ⟨30, 27, 70, 60, 25, 35⟩ ⟨false, false⟩).lampada =
      if false = false ∧ (20 : Int) < 25 then true
      else if false = true ∧ (20 : Int) > 35 then false
      else false :=
  ⟨by norm_num,
   controlar_lamp_hysteresis ⟨false, false, false⟩ ⟨28, 50, 20⟩ ⟨30, 27, 70, 60, 25, 35⟩
     ⟨false, false⟩ (by norm_num) rfl⟩

/-- C3: in manual mode `controlar` returns exactly the manual
overrides, and its result does not depend on the reading, the config or
the previous actuator state. -/
theorem controlar_manual (m : Mode) (r : Reading) (c : Config) (s : Actuators)
    (hm : m.modoManual = true) :
    controlar m r c s = { lampada := m.lampManual, motor := m.motManual } ∧
    ∀ (r2 : Reading) (c2 : Config) (s2 : Actuators),
      controlar m r c s = controlar m r2 c2 s2 := by
  refine ⟨by simp [controlar, hm], fun r2 c2 s2 => by simp [controlar, hm]⟩

/-- Witness for C3: a manual-mode state with lamp override on and motor
override off, compared at two different readings, configs and previous
states. -/
theorem controlar_manual_witness :
    (true : Bool) = true ∧
    controlar ⟨true, true, false⟩ ⟨31, 50, 20⟩ ⟨30, 27, 70, 60, 25, 35⟩ ⟨false, true⟩ =
      { lampada := true, motor := false } ∧
    controlar ⟨true, true, false⟩ ⟨31, 50, 20⟩ ⟨30, 27, 70, 60, 25, 35⟩ ⟨false, true⟩ =
      controlar ⟨true, true, false⟩ ⟨0, 0, 99⟩ ⟨1, 2, 3, 4, 5, 6⟩ ⟨true, true⟩ :=
  ⟨rfl,
   (controlar_manual ⟨true, true, false⟩ ⟨31, 50, 20⟩ ⟨30, 27, 70, 60, 25, 35⟩ ⟨false, true⟩ rfl).1,
   (controlar_manual ⟨true, true, false⟩ ⟨31, 50, 20⟩ ⟨30, 27, 70, 60, 25, 35⟩ ⟨false, true⟩ rfl).2
     ⟨0, 0, 99⟩ ⟨1, 2, 3, 4, 5, 6⟩ ⟨true, true⟩⟩

/-- C9: `controlar` is idempotent — a second application with the same
reading, config and mode reproduces the actuator state of the first,
for every configuration (ordered or not) and in both modes. -/
theorem controlar_idem (m : Mode) (r : Reading) (c : Config) (s : Actuators) :
    controlar m r c (controlar m r c s) = controlar m r c s := by
  by_cases hm : m.modoManual <;>
  simp [controlar, hm, motorStep_idem, lampStep_idem]

/-- C4: a `SetMode` request with target manual, issued in automatic
mode, snapshots the current relay states into the manual overrides, so
the next control decision in manual mode (with any reading, config and
previous state) reproduces the actuator state from before the switch;
and a `SetMode` request whose target equals the current mode leaves
the mode and override state unchanged. -/
theorem handleSetMode_capture (st st2 : SysState) (a b : String)
    (hauto : st.mode.modoManual = false) (h1 : toInt a = 1)
    (hsame : (toInt b == 1) = st2.mode.modoManual) :
    ((handleSetMode (some a) st).1.mode.modoManual = true
      ∧ (handleSetMode (some a) st).1.mode.lampManual = st.act.lampada
      ∧ (handleSetMode (some a) st).1.mode.motManual = st.act.motor
      ∧ ∀ (r : Reading) (c : Config) (s : Actuators),
          controlar (handleSetMode (some a) st).1.mode r c s = st.act)
    ∧ (handleSetMode (some b) st2).1.mode = st2.mode := by
  constructor
  · refine ⟨?_, ?_, ?_, fun r c s => ?_⟩ <;>
      simp [handleSetMode, h1, hauto, controlar]
  · simp only [handleSetMode, hsame]
    simp

/-- Witness for C4: automatic state with lamp on and motor off,
switched to manual by `mode=1`; and a redundant `mode=0` request on
the same automatic state. -/
theorem handleSetMode_capture_witness :
    (⟨⟨31, 50, 20⟩, ⟨30, 27, 70, 60, 25, 35⟩, ⟨true, false⟩, ⟨false, false, true⟩⟩ :
        SysState).mode.modoManual = false
    ∧ toInt "1" = 1
    ∧ (toInt "0" == 1) =
        (⟨⟨31, 50, 20⟩, ⟨30, 27, 70, 60, 25, 35⟩, ⟨true, false⟩, ⟨false, false, true⟩⟩ :
          SysState).mode.modoManual
    ∧ (((handleSetMode (some "1")
          ⟨⟨31, 50, 20⟩, ⟨30, 27, 70, 60, 25, 35⟩, ⟨true, false⟩, ⟨false, false, true⟩⟩).1.mode.modoManual = true
        ∧ (handleSetMode (some "1")
          ⟨⟨31, 50, 20⟩, ⟨30, 27, 70, 60, 25, 35⟩, ⟨true, false⟩, ⟨false, false, true⟩⟩).1.mode.lampManual = true
        ∧ (handleSetMode (some "1")
          ⟨⟨31, 50, 20⟩, ⟨30, 27, 70, 60, 25, 35⟩, ⟨true, false⟩, ⟨false, false, true⟩⟩).1.mode.motManual = false
        ∧ ∀ (r : Reading) (c : Config) (s : Actuators),
            controlar (handleSetMode (some "1")
              ⟨⟨31, 50, 20⟩, ⟨30, 27, 70, 60, 25, 35⟩, ⟨true, false⟩, ⟨false, false, true⟩⟩).1.mode r c s
              = ⟨true, false⟩)
       ∧ (handleSetMode (some "0")
          ⟨⟨31, 50, 20⟩, ⟨30, 27, 70, 60, 25, 35⟩, ⟨true, false⟩, ⟨false, false, true⟩⟩).1.mode
          = ⟨false, false, true⟩) :=
  ⟨rfl, by decide, by decide,
   handleSetMode_capture
     ⟨⟨31, 50, 20⟩, ⟨30, 27, 70, 60, 25, 35⟩, ⟨true, false⟩, ⟨false, false, true⟩⟩
     ⟨⟨31, 50, 20⟩, ⟨30, 27, 70, 60, 25, 35⟩, ⟨true, false⟩, ⟨false, false, true⟩⟩
     "1" "0" rfl (by decide) (by decide)⟩

/-- C10: a `SetMode` request with the `mode` field present enters
manual mode exactly when the field parses (C `atol` semantics) to the
integer 1; every other value — 2, negatives, non-numeric text, which
parses to 0 — selects automatic mode, and the request is answered 200,
never rejected. -/
theorem handleSetMode_parse (a : String) (st : SysState) :
    ((handleSetMode (some a) st).1.mode.modoManual = true ↔ toInt a = 1)
    ∧ (handleSetMode (some a) st).2 = 200
    ∧ (handleSetMode (some "2") st).1.mode.modoManual = false
    ∧ (handleSetMode (some "-3") st).1.mode.modoManual = false
    ∧ (handleSetMode (some "abc") st).1.mode.modoManual = false := by
  refine ⟨?_, rfl, ?_, ?_, ?_⟩ <;> simp [handleSetMode] <;> decide

/-- C5: a `SetManualOverride` request with both arguments present is
rejected with 403 and no state change while the mode is automatic; the
same request issued after `SetMode` to manual succeeds with 200,
stores the override, immediately re-runs the decision step, and the
new actuator value is what the very next `GetSnapshot` reports. -/
theorem handleSetRelay_gating (st : SysState) (ch sv ma : String)
    (hma : toInt ma = 1) :
    (st.mode.modoManual = false → handleSetRelay (some ch) (some sv) st = (st, 403))
    ∧ (ch = "lamp" →
        (handleSetRelay (some ch) (some sv) (handleSetMode (some ma) st).1).2 = 200
        ∧ (handleSetRelay (some ch) (some sv) (handleSetMode (some ma) st).1).1.mode.lampManual
            = (toInt sv == 1)
        ∧ (handleSetRelay (some ch) (some sv) (handleSetMode (some ma) st).1).1.act.lampada
            = (toInt sv == 1)
        ∧ (handleGetData (handleSetRelay (some ch) (some sv) (handleSetMode (some ma) st).1).1).lampada
            = (if toInt sv == 1 then 1 else 0))
    ∧ (ch = "motor" →
        (handleSetRelay (some ch) (some sv) (handleSetMode (some ma) st).1).2 = 200
        ∧ (handleSetRelay (some ch) (some sv) (handleSetMode (some ma) st).1).1.mode.motManual
            = (toInt sv == 1)
        ∧ (handleSetRelay (some ch) (some sv) (handleSetMode (some ma) st).1).1.act.motor
            = (toInt sv == 1)
        ∧ (handleGetData (handleSetRelay (some ch) (some sv) (handleSetMode (some ma) st).1).1).motor
            = (if toInt sv == 1 then 1 else 0)) := by
  refine ⟨fun h => ?_, fun hch => ?_, fun hch => ?_⟩
  · simp [handleSetRelay, h]
  · subst hch
    simp [handleSetRelay, handleSetMode, handleGetData, hma, controlar]
  · subst hch
    simp [handleSetRelay, handleSetMode, handleGetData, hma, controlar]

/-- Witness for C5: automatic state where a lamp override is refused
with 403, and after `mode=1` the same request succeeds and the
snapshot reports the lamp on. -/
theorem handleSetRelay_gating_witness :
    toInt "1" = 1
    ∧ handleSetRelay (some "lamp") (some "1")
        ⟨⟨31, 50, 20⟩, ⟨30, 27, 70, 60, 25, 35⟩, ⟨false, false⟩, ⟨false, false, false⟩⟩ =
        (⟨⟨31, 50, 20⟩, ⟨30, 27, 70, 60, 25, 35⟩, ⟨false, false⟩, ⟨false, false, false⟩⟩, 403)
    ∧ (handleSetRelay (some "lamp") (some "1")
        (handleSetMode (some "1")
          ⟨⟨31, 50, 20⟩, ⟨30, 27, 70, 60, 25, 35⟩, ⟨false, false⟩, ⟨false, false, false⟩⟩).1).2 = 200
    ∧ (handleGetData (handleSetRelay (some "lamp") (some "1")
        (handleSetMode (some "1")
          ⟨⟨31, 50, 20⟩, ⟨30, 27, 70, 60, 25, 35⟩, ⟨false, false⟩, ⟨false, false, false⟩⟩).1).1).lampada
        = (if toInt "1" == 1 then 1 else 0) :=
  ⟨by decide,
   (handleSetRelay_gating
      ⟨⟨31, 50, 20⟩, ⟨30, 27, 70, 60, 25, 35⟩, ⟨false, false⟩, ⟨false, false, false⟩⟩
      "lamp" "1" "1" (by decide)).1 rfl,
   ((handleSetRelay_gating
      ⟨⟨31, 50, 20⟩, ⟨30, 27, 70, 60, 25, 35⟩, ⟨false, false⟩, ⟨false, false, false⟩⟩
      "lamp" "1" "1" (by decide)).2.1 rfl).1,
   ((handleSetRelay_gating
      ⟨⟨31, 50, 20⟩, ⟨30, 27, 70, 60, 25, 35⟩, ⟨false, false⟩, ⟨false, false, false⟩⟩
      "lamp" "1" "1" (by decide)).2.1 rfl).2.2.2⟩

/-- C6 counterexample: in manual mode, a `SetManualOverride` request
with the unrecognized channel `fan` is answered with the success code
200 — not an error — and the actuator state does change (the decision
step is re-run with the untouched overrides), refuting the claim that
the handler signals an error and leaves the actuator state unchanged. -/
theorem handleSetRelay_unknown_channel_ce :
    (handleSetRelay (some "fan") (some "1")
        ⟨⟨25, 50, 50⟩, ⟨30, 27, 70, 60, 25, 35⟩, ⟨true, true⟩, ⟨true, false, false⟩⟩).2 = 200
    ∧ (handleSetRelay (some "fan") (some "1")
        ⟨⟨25, 50, 50⟩, ⟨30, 27, 70, 60, 25, 35⟩, ⟨true, true⟩, ⟨true, false, false⟩⟩).1.act
        ≠ (⟨true, true⟩ : Actuators) := by
  refine ⟨rfl, by decide⟩

/-- C6 amended: in manual mode, a `SetManualOverride` request whose
channel is neither `lamp` nor `motor` leaves the mode and manual
overrides unchanged, silently answers 200, and still re-runs the
decision step, so the actuator state becomes the unchanged manual
overrides. -/
theorem handleSetRelay_unknown_channel (st : SysState) (ch sv : String)
    (hman : st.mode.modoManual = true) (hl : ch ≠ "lamp") (hmo : ch ≠ "motor") :
    handleSetRelay (some ch) (some sv) st =
      ({ st with act := { lampada := st.mode.lampManual, motor := st.mode.motManual } }, 200) := by
  simp [handleSetRelay, hman, hl, hmo, controlar]

/-- Witness for the amended C6 at channel `fan` in a manual-mode
state. -/
theorem handleSetRelay_unknown_channel_witness :
    (⟨⟨25, 50, 50⟩, ⟨30, 27, 70, 60, 25, 35⟩, ⟨true, true⟩, ⟨true, false, false⟩⟩ :
        SysState).mode.modoManual = true
    ∧ ("fan" : String) ≠ "lamp" ∧ ("fan" : String) ≠ "motor"
    ∧ handleSetRelay (some "fan") (some "1")
        ⟨⟨25, 50, 50⟩, ⟨30, 27, 70, 60, 25, 35⟩, ⟨true, true⟩, ⟨true, false, false⟩⟩ =
        (⟨⟨25, 50, 50⟩, ⟨30, 27, 70, 60, 25, 35⟩, ⟨false, false⟩, ⟨true, false, false⟩⟩, 200) :=
  ⟨rfl, by decide, by decide,
   handleSetRelay_unknown_channel
     ⟨⟨25, 50, 50⟩, ⟨30, 27, 70, 60, 25, 35⟩, ⟨true, true⟩, ⟨true, false, false⟩⟩
     "fan" "1" rfl (by decide) (by decide)⟩

/-- C7: `SetConfig` updates exactly the present threshold fields —
each present field overwrites its config value, each absent field
keeps its prior value — and leaves the reading, actuator state and
mode untouched, answering 200. -/
theorem handleSetConfig_partial (tL tD uL uD : Option ℚ) (lL lD : Option Int)
    (st : SysState) :
    (handleSetConfig tL tD uL uD lL lD st).1.cfg.tempLigar = tL.getD st.cfg.tempLigar
    ∧ (handleSetConfig tL tD uL uD lL lD st).1.cfg.tempDeslig = tD.getD st.cfg.tempDeslig
    ∧ (handleSetConfig tL tD uL uD lL lD st).1.cfg.umidLigar = uL.getD st.cfg.umidLigar
    ∧ (handleSetConfig tL tD uL uD lL lD st).1.cfg.umidDeslig = uD.getD st.cfg.umidDeslig
    ∧ (handleSetConfig tL tD uL uD lL lD st).1.cfg.luzLigar = lL.getD st.cfg.luzLigar
    ∧ (handleSetConfig tL tD uL uD lL lD st).1.cfg.luzDeslig = lD.getD st.cfg.luzDeslig
    ∧ (handleSetConfig tL tD uL uD lL lD st).1.reading = st.reading
    ∧ (handleSetConfig tL tD uL uD lL lD st).1.act = st.act
    ∧ (handleSetConfig tL tD uL uD lL lD st).1.mode = st.mode
    ∧ (handleSetConfig tL tD uL uD lL lD st).2 = 200 := by
  cases tL <;> cases tD <;> cases uL <;> cases uD <;> cases lL <;> cases lD <;>
    simp [handleSetConfig]

/-- C8: in a sensor poll, a NaN temperature or humidity component
keeps the stored value at its last valid value while valid components
update; the light percentage is always recomputed from the ADC, and
config, actuator state and mode are untouched (the poll is a total
function, so a fault never aborts the tick). -/
theorem lerSensores_fault_retention (s : DhtSample) (adc : Int) (st : SysState) :
    (lerSensores s adc st).reading.temperatura = s.t.getD st.reading.temperatura
    ∧ (lerSensores s adc st).reading.umidade = s.h.getD st.reading.umidade
    ∧ (lerSensores s adc st).reading.pctLuz = constrain (arduinoMap adc 0 4095 0 100) 0 100
    ∧ (lerSensores s adc st).cfg = st.cfg
    ∧ (lerSensores s adc st).act = st.act
    ∧ (lerSensores s adc st).mode = st.mode := by
  obtain ⟨t, h⟩ := s
  cases t <;> cases h <;> simp [lerSensores]
